import Mathlib

/-!
Shallow embedding of the QuickSignTest OCR web service (Python sources under
`app/`), covering the metrics aggregator (`app/metrics.py`), the storage
adapter (`app/services/storage.py`), the metadata recorder
(`app/services/database.py`) and the two request handlers
(`app/webservice.py`).  Confidence scores are modelled as exact rationals,
byte strings as lists of naturals, and the external collaborators
(HTTP client, PIL decoding, the pretrained model) as explicit parameters
returning `Except`.
-/

namespace QuickSign

/-! ## Configuration (`app/config.py`) -/

/-- Default value of `MINIO_BUCKET` from `app/config.py`. -/
def MINIO_BUCKET : String := "images"

/-- Threshold `LOW_SCORE_THRESHOLD = 0.5` from `app/config.py`. -/
def LOW_SCORE_THRESHOLD : ℚ := 1/2

/-! ## Metrics aggregator (`app/metrics.py`)

The module-level Prometheus objects and the `running_scores` list are
modelled as one explicit state record; `Counter.inc` adds one,
`Histogram.observe` appends the observation, `Gauge.set` overwrites the
gauge value. -/

/-- The process-wide metrics state of `app/metrics.py`: the two counters,
the observations recorded by the histogram, the `running_scores` list and the
current value of the `prediction_score_average` gauge. -/
structure MetricsState where
  predictions_total : ℕ
  histogram_observations : List ℚ
  low_score_predictions : ℕ
  running_scores : List ℚ
  prediction_score_avg : ℚ
  deriving Repr, DecidableEq

/-- The rolling-window step of `update_metrics`:
`running_scores.append(score)` followed by
`if len(running_scores) > 1000: running_scores.pop(0)`. -/
def stepWindow (w : List ℚ) (score : ℚ) : List ℚ :=
  let w1 := w ++ [score]
  if w1.length > 1000 then w1.tail else w1

/-- Model of `update_metrics(score)` from `app/metrics.py`: increment the total
counter, observe the score in the histogram, increment the low-score
counter when `score < LOW_SCORE_THRESHOLD`, append to `running_scores`
popping the front element when the list exceeds 1000 entries, and when the
list is non-empty set the average gauge to `sum(...) / len(...)`. -/
def update_metrics (score : ℚ) (st : MetricsState) : MetricsState :=
  let st1 := { st with predictions_total := st.predictions_total + 1 }
  let st2 := { st1 with
    histogram_observations := st1.histogram_observations ++ [score] }
  let st3 :=
    if score < LOW_SCORE_THRESHOLD then
      { st2 with low_score_predictions := st2.low_score_predictions + 1 }
    else st2
  let rs := stepWindow st3.running_scores score
  let st4 := { st3 with running_scores := rs }
  if rs.isEmpty then st4
  else { st4 with prediction_score_avg := rs.sum / (rs.length : ℚ) }

/-- Folding a sequence of `update_metrics` calls over an initial state. -/
def applyScores (scores : List ℚ) (st : MetricsState) : MetricsState :=
  scores.foldl (fun s sc => update_metrics sc s) st

/-- The suffix of `l` made of its (at most) `n` last elements. -/
def lastN (n : ℕ) (l : List ℚ) : List ℚ := l.drop (l.length - n)

lemma length_lastN (n : ℕ) (l : List ℚ) : (lastN n l).length ≤ n := by
  simp [lastN]
  omega

lemma lastN_of_length_le {n : ℕ} {l : List ℚ} (h : l.length ≤ n) :
    lastN n l = l := by
  simp [lastN, Nat.sub_eq_zero_of_le h]

lemma stepWindow_eq_lastN {w : List ℚ} (s : ℚ) (h : w.length ≤ 1000) :
    stepWindow w s = lastN 1000 (w ++ [s]) := by
  unfold stepWindow
  by_cases hlen : (w ++ [s]).length > 1000
  · simp only [hlen, if_pos]
    have hw : w.length = 1000 := by
      simp [List.length_append] at hlen; omega
    simp [lastN, List.length_append, hw, List.drop_one]
  · simp only [hlen, if_neg, not_false_iff]
    have : (w ++ [s]).length ≤ 1000 := by omega
    rw [lastN_of_length_le this]

lemma lastN_append_lastN (l xs : List ℚ) :
    lastN 1000 (lastN 1000 l ++ xs) = lastN 1000 (l ++ xs) := by
  by_cases h : l.length ≤ 1000
  · rw [lastN_of_length_le h]
  · push_neg at h
    set k := l.length - 1000 with hk
    have hk_le : k ≤ l.length := by omega
    have hdrop : lastN 1000 l = l.drop k := rfl
    have hlen_drop : (l.drop k).length = 1000 := by
      simp [List.length_drop]; omega
    rw [hdrop]
    unfold lastN
    rw [List.length_append, List.length_append, hlen_drop]
    have h1 : 1000 + xs.length - 1000 = xs.length := by omega
    have h2 : l.length + xs.length - 1000 = k + xs.length := by omega
    rw [h1, h2]
    rw [← List.drop_drop, List.drop_append_of_le_length hk_le]

lemma update_metrics_running_scores (s : ℚ) (st : MetricsState) :
    (update_metrics s st).running_scores = stepWindow st.running_scores s := by
  simp only [update_metrics]
  split <;> split <;> rfl

/-- C1: For every sequence of `update_metrics` calls starting from a window of
length at most 1000, the window after the calls is exactly the suffix of
the concatenated score stream of length at most 1000 (the most recent
scores, in order, oldest evicted first), and in particular its length
never exceeds 1000. -/
theorem rolling_window_fifo_bound (st : MetricsState) (scores : List ℚ)
    (h : st.running_scores.length ≤ 1000) :
    (applyScores scores st).running_scores
        = lastN 1000 (st.running_scores ++ scores)
    ∧ (applyScores scores st).running_scores.length ≤ 1000 := by
  induction scores generalizing st with
  | nil =>
    simp [applyScores, lastN_of_length_le h, h]
  | cons s ss ih =>
    have hstep : (update_metrics s st).running_scores
        = lastN 1000 (st.running_scores ++ [s]) := by
      rw [update_metrics_running_scores, stepWindow_eq_lastN s h]
    have hlen : (update_metrics s st).running_scores.length ≤ 1000 := by
      rw [hstep]; exact length_lastN _ _
    have step₂ : applyScores (s :: ss) st = applyScores ss (update_metrics s st) := rfl
    obtain ⟨ih1, ih2⟩ := ih (update_metrics s st) hlen
    refine ⟨?_, by rw [step₂]; exact ih2⟩
    rw [step₂, ih1, hstep, lastN_append_lastN]
    simp

/-- Closed instance of `rolling_window_fifo_bound` on a concrete run. -/
theorem rolling_window_fifo_bound_witness :
    (({ predictions_total := 0, histogram_observations := [],
        low_score_predictions := 0, running_scores := [],
        prediction_score_avg := 0 } : MetricsState).running_scores.length ≤ 1000)
    ∧ ((applyScores [1/4, 3/4]
        { predictions_total := 0, histogram_observations := [],
          low_score_predictions := 0, running_scores := [],
          prediction_score_avg := 0 }).running_scores
        = lastN 1000 (([] : List ℚ) ++ [1/4, 3/4])
      ∧ (applyScores [1/4, 3/4]
        { predictions_total := 0, histogram_observations := [],
          low_score_predictions := 0, running_scores := [],
          prediction_score_avg := 0 }).running_scores.length ≤ 1000) :=
  ⟨by decide,
   rolling_window_fifo_bound
     { predictions_total := 0, histogram_observations := [],
       low_score_predictions := 0, running_scores := [],
       prediction_score_avg := 0 } [1/4, 3/4] (by decide)⟩

/-- C2: For every call `update_metrics(score)`, the total-predictions
counter increases by exactly 1, and the low-score counter increases by
exactly 1 when `score < 0.5` and is unchanged when `score ≥ 0.5`. -/
theorem update_metrics_counters (s : ℚ) (st : MetricsState) :
    (update_metrics s st).predictions_total = st.predictions_total + 1
    ∧ (update_metrics s st).low_score_predictions
        = (if s < LOW_SCORE_THRESHOLD then st.low_score_predictions + 1
           else st.low_score_predictions) := by
  simp only [update_metrics]
  refine ⟨?_, ?_⟩ <;> split <;> split <;> rfl

/-- C3: After every call to `update_metrics`, the published
`prediction_score_average` gauge equals the arithmetic mean (sum divided
by length) of exactly the scores retained in the rolling window. -/
theorem gauge_is_window_mean (s : ℚ) (st : MetricsState) :
    (update_metrics s st).prediction_score_avg
      = (update_metrics s st).running_scores.sum
          / ((update_metrics s st).running_scores.length : ℚ) := by
  have hne : ¬ (stepWindow st.running_scores s).isEmpty := by
    simp only [stepWindow]
    split
    · rename_i hgt
      simp only [List.isEmpty_iff, ← List.length_eq_zero, List.length_tail]
      omega
    · simp [List.isEmpty_iff]
  rw [update_metrics_running_scores]
  simp only [update_metrics]
  split <;> simp_all [update_metrics_running_scores]

/-! ## Storage adapter (`app/services/storage.py`)

The MinIO/S3 content store is modelled as a flag recording whether the
bucket exists plus an association list from object keys to byte strings;
`put_object` prepends (overwriting on lookup), `head_bucket`/`create_bucket`
become a check-then-set of the flag. -/

/-- Byte strings are lists of byte values. -/
abbrev Bytes : Type := List ℕ

/-- State of the content store: whether the bucket exists and the objects
in it, keyed by object key (most recent write first). -/
structure S3State where
  bucketExists : Bool
  objects : List (String × Bytes)
  deriving Repr

/-- Model of `ensure_bucket_exists()`: `head_bucket` raises `ClientError` when the
bucket is missing, in which case `create_bucket` is called. -/
def ensure_bucket_exists (st : S3State) : S3State :=
  if st.bucketExists then st else { st with bucketExists := true }

/-- Model of `s3_client.put_object(Bucket=..., Key=key, Body=body, ...)`: write
`body` under `key`, overwriting any previous object with that key. -/
def put_object (st : S3State) (key : String) (body : Bytes) : S3State :=
  { st with objects := (key, body) :: st.objects }

/-- Reading an object back from the store: the most recent write wins. -/
def getObject (st : S3State) (key : String) : Option Bytes :=
  (st.objects.find? (fun kv => kv.1 == key)).map Prod.snd

/-- Model of `upload_image_to_minio(image_data, image_id)`: ensure the bucket
exists, write the bytes under the key `f"{image_id}.jpg"`, and return
`f"{MINIO_BUCKET}/{object_key}"`. -/
def upload_image_to_minio (st : S3State) (image_data : Bytes)
    (image_id : String) : S3State × String :=
  let st1 := ensure_bucket_exists st
  let object_key := image_id ++ ".jpg"
  let st2 := put_object st1 object_key image_data
  (st2, MINIO_BUCKET ++ "/" ++ object_key)

/-- C7: `store(b, id)` writes exactly `b` under the key `id ++ ".jpg"`, so
that a subsequent read of that key returns `b` byte-for-byte, and it
returns the path combining the container name and that key. -/
theorem upload_roundtrip (st : S3State) (image_data : Bytes)
    (image_id : String) :
    getObject (upload_image_to_minio st image_data image_id).1
        (image_id ++ ".jpg") = some image_data
    ∧ (upload_image_to_minio st image_data image_id).2
        = MINIO_BUCKET ++ "/" ++ image_id ++ ".jpg" := by
  constructor
  · simp [upload_image_to_minio, put_object, getObject, List.find?]
  · rfl

/-! ## Metadata recorder (`app/services/database.py`)

The MongoDB collection is modelled as a list of documents; `insert_one`
appends. -/

/-- A wall-clock instant, as the fields `strftime` and `datetime.utcnow`
use. -/
structure Timestamp where
  year : ℕ
  month : ℕ
  day : ℕ
  hour : ℕ
  minute : ℕ
  second : ℕ
  microsecond : ℕ
  deriving Repr, DecidableEq

/-- One document of the `predictions` collection, with the fields written
by `save_metadata_to_mongo`. -/
structure MetadataDocument where
  image_id : String
  timestamp : Timestamp
  image_url : String
  minio_path : String
  predicted_text : String
  score : ℚ
  annotation : Option String
  deriving Repr, DecidableEq

/-- Model of `save_metadata_to_mongo(...)`: build the document (with
`datetime.utcnow()` as timestamp) and `collection.insert_one(document)`. -/
def save_metadata_to_mongo (image_id image_url minio_path predicted_text : String)
    (score : ℚ) ( annotation : Option String) (now : Timestamp)
    (mongo : List MetadataDocument) : List MetadataDocument :=
  mongo ++ [{ image_id := image_id, timestamp := now, image_url := image_url,
              minio_path := minio_path, predicted_text := predicted_text,
              score := score, annotation := annotation }]

/-! ## Request handlers (`app/webservice.py`)

External collaborators are explicit parameters: the HTTP fetch outcome,
the PIL decode step and `perform_prediction` are `Except`-valued, the
wall clock is a `Timestamp`.  A decoded PIL image is opaque. -/

/-- An opaque decoded RGB image (the result of
`Image.open(...).convert("RGB")`). -/
structure RGBImage where
  deriving Repr, DecidableEq

/-- Outcome of `client.get(url)` followed by `raise_for_status()`:
either an `httpx` transport error carrying a message, or a response with
a status code, the message a `raise_for_status` failure would carry, and
the body bytes. -/
inductive FetchOutcome where
  | netError (msg : String)
  | response (code : ℕ) (statusMsg : String) (body : Bytes)
  deriving Repr

/-- Model of `httpx.Response.is_success`: status codes 200–299. -/
def isSuccessStatus (code : ℕ) : Bool := 200 ≤ code && code ≤ 299

/-- The `IngestRequest` model (`app/models.py`): image URL and optional
annotation. -/
structure IngestRequest where
  image_url : String
  annotation : Option String
  deriving Repr, DecidableEq

/-- The `IngestResponse` model (`app/models.py`). -/
structure IngestResponse where
  status : String
  image_id : String
  predicted_text : String
  score : ℚ
  deriving Repr, DecidableEq

/-- The `PredictOutput` model (`app/models.py`). -/
structure PredictOutput where
  predicted_text : String
  score : ℚ
  deriving Repr, DecidableEq

/-- A FastAPI `HTTPException`: status code and detail string. -/
structure HTTPEx where
  status_code : ℕ
  detail : String
  deriving Repr, DecidableEq

/-- A task scheduled with `background_tasks.add_task` by the ingest
handler. -/
inductive BgTask where
  | uploadImage (image_data : Bytes) (image_id : String)
  | saveMetadata (image_id image_url minio_path predicted_text : String)
      (score : ℚ) ( annotation : Option String)
  deriving Repr

/-- Running one background task against the external stores. -/
def runBgTask (task : BgTask) (now : Timestamp) (s3 : S3State)
    (mongo : List MetadataDocument) : S3State × List MetadataDocument :=
  match task with
  | .uploadImage data id => ((upload_image_to_minio s3 data id).1, mongo)
  | .saveMetadata id url path text score ann =>
      (s3, save_metadata_to_mongo id url path text score ann now mongo)

/-- Left-pad the decimal digits of `n` with zeros to `width` characters,
as the numeric fields of `strftime` do. -/
def padNum (width n : ℕ) : String :=
  let s := toString n
  String.mk (List.replicate (width - s.length) '0') ++ s

/-- Model of the `strftime` call generating the image identifier (format
`%Y%m%d_%H%M%S_%f` applied to `datetime.now()`): the identifier
generated by the ingest handler. -/
def formatImageId (t : Timestamp) : String :=
  padNum 4 t.year ++ padNum 2 t.month ++ padNum 2 t.day ++ "_"
    ++ padNum 2 t.hour ++ padNum 2 t.minute ++ padNum 2 t.second ++ "_"
    ++ padNum 6 t.microsecond

/-- The `minio_path` string the ingest handler computes itself:
`f"{MINIO_BUCKET}/{image_id}.jpg"`. -/
def ingestMinioPath (image_id : String) : String :=
  MINIO_BUCKET ++ "/" ++ image_id ++ ".jpg"

/-- The errors the `try` body of `ingest_data` can raise, classified by
the exception type the `except` clauses dispatch on: `httpx.HTTPError`
(network error or `raise_for_status`) versus any other `Exception`
(PIL decode, model inference). -/
inductive IngestError where
  | httpError (msg : String)
  | internalError (msg : String)
  deriving Repr, DecidableEq

/-- The `try` body of `ingest_data`: download and `raise_for_status`,
decode the bytes, run `perform_prediction`, call `update_metrics`,
generate the image id, and schedule the two background tasks. -/
def ingestBody (fetch : FetchOutcome)
    (decode : Bytes → Except String RGBImage)
    (predictFn : RGBImage → Except String (String × ℚ))
    (now : Timestamp) (request : IngestRequest) (st : MetricsState) :
    Except IngestError (IngestResponse × List BgTask × MetricsState) :=
  match fetch with
  | .netError m => .error (.httpError m)
  | .response code statusMsg body =>
    if isSuccessStatus code then
      match decode body with
      | .error m => .error (.internalError m)
      | .ok img =>
        match predictFn img with
        | .error m => .error (.internalError m)
        | .ok (predicted_text, confidence) =>
          let st' := update_metrics confidence st
          let image_id := formatImageId now
          let minio_path := ingestMinioPath image_id
          let tasks := [BgTask.uploadImage body image_id,
                        BgTask.saveMetadata image_id request.image_url
                          minio_path predicted_text confidence
                          request.annotation]
          .ok ({ status := "success", image_id := image_id,
                 predicted_text := predicted_text, score := confidence },
               tasks, st')
    else .error (.httpError statusMsg)

/-- Model of `ingest_data(request, background_tasks)`: the `try` body, with
`except httpx.HTTPError` mapped to a 400 `HTTPException` and
`except Exception` mapped to a 500 `HTTPException`, each detail carrying
the message of the exception after a fixed prefix.  Returns the
outcome of the handler together with the metrics state. -/
def ingest_data (fetch : FetchOutcome)
    (decode : Bytes → Except String RGBImage)
    (predictFn : RGBImage → Except String (String × ℚ))
    (now : Timestamp) (request : IngestRequest) (st : MetricsState) :
    Except HTTPEx (IngestResponse × List BgTask) × MetricsState :=
  match ingestBody fetch decode predictFn now request st with
  | .ok (resp, tasks, st') => (.ok (resp, tasks), st')
  | .error (.httpError m) =>
      (.error { status_code := 400,
                detail := "Failed to download image from URL: " ++ m }, st)
  | .error (.internalError m) =>
      (.error { status_code := 500,
                detail := "Internal error during ingestion: " ++ m }, st)

/-- Model of `predict(file)`.  The `with NamedTemporaryFile(delete=False)`
block first creates the scratch file on disk and then runs
`shutil.copyfileobj(file.file, tmp)` and `tmp.flush()`; `copyResult` is
the outcome of that copy-and-flush step, which executes before the
`try ... finally` is entered, so an exception there propagates without
any cleanup.  Only afterwards does the `try` body decode the image, run
`perform_prediction`, call `update_metrics` and build the output, with
the `finally` block unlinking the scratch file.  The returned `Bool`
says whether the scratch file still exists when the handler exits. -/
def predictHandler (copyResult : Except String Unit)
    (decodeResult : Except String RGBImage)
    (predictFn : RGBImage → Except String (String × ℚ))
    (st : MetricsState) :
    Except String PredictOutput × MetricsState × Bool :=
  let tempPresent := true
  match copyResult with
  | .error m => (.error m, st, tempPresent)
  | .ok _ =>
    let body : Except String (PredictOutput × MetricsState) :=
      match decodeResult with
      | .error m => .error m
      | .ok img =>
        match predictFn img with
        | .error m => .error m
        | .ok (t, c) =>
            .ok ({ predicted_text := t, score := c }, update_metrics c st)
    let tempAfter := if tempPresent then false else tempPresent
    match body with
    | .ok (out, st') => (.ok out, st', tempAfter)
    | .error m => (.error m, st, tempAfter)

/-! ## Concrete sample values used by witness instances. -/

/-- An all-zero initial metrics state. -/
def emptyMetrics : MetricsState :=
  { predictions_total := 0, histogram_observations := [],
    low_score_predictions := 0, running_scores := [],
    prediction_score_avg := 0 }

/-- A concrete wall-clock instant. -/
def sampleTime : Timestamp :=
  { year := 2024, month := 1, day := 2, hour := 3, minute := 4,
    second := 5, microsecond := 6 }

/-- A concrete ingest request. -/
def sampleRequest : IngestRequest :=
  { image_url := "https://example.com/a.jpg",
    annotation := some "ground truth" }

/-- A decode step that always succeeds. -/
def decodeOk : Bytes → Except String RGBImage := fun _ => .ok {}

/-- A decode step that always fails with a fixed message. -/
def errDecode : Bytes → Except String RGBImage :=
  fun _ => .error "stage failure"

/-- An inference step that always returns a fixed prediction. -/
def predictWorld : RGBImage → Except String (String × ℚ) :=
  fun _ => .ok ("world", 7/10)

/-- An inference step that always fails with a fixed message. -/
def errPredict : RGBImage → Except String (String × ℚ) :=
  fun _ => .error "stage failure"

lemma formatImageId_ne_empty (t : Timestamp) : formatImageId t ≠ "" := by
  intro h
  have hu : ("_" : String).length = 1 := rfl
  have hlen := congrArg String.length h
  simp [formatImageId, String.length_append, hu, String.length_empty] at hlen

/-- C4: For every ingest request, a download failure (network error or a
non-success HTTP status reported by `raise_for_status`) yields a 400
response whose detail is the download-failure prefix followed by the
underlying message; a decode or inference failure yields a 500 response
with the internal-error detail; and two runs failing in different
non-download stages with the same message produce identical responses, so
the response does not reveal which non-download stage failed. -/
theorem ingest_error_classification :
    (∀ (decode : Bytes → Except String RGBImage)
       (predictFn : RGBImage → Except String (String × ℚ))
       (now : Timestamp) (request : IngestRequest) (st : MetricsState)
       (m : String),
       ingest_data (.netError m) decode predictFn now request st
         = (.error { status_code := 400,
                     detail := "Failed to download image from URL: " ++ m }, st))
    ∧ (∀ (decode : Bytes → Except String RGBImage)
         (predictFn : RGBImage → Except String (String × ℚ))
         (now : Timestamp) (request : IngestRequest) (st : MetricsState)
         (code : ℕ) (sm : String) (body : Bytes),
         isSuccessStatus code = false →
         ingest_data (.response code sm body) decode predictFn now request st
           = (.error { status_code := 400,
                       detail := "Failed to download image from URL: " ++ sm }, st))
    ∧ (∀ (decode : Bytes → Except String RGBImage)
         (predictFn : RGBImage → Except String (String × ℚ))
         (now : Timestamp) (request : IngestRequest) (st : MetricsState)
         (code : ℕ) (sm : String) (body : Bytes) (m : String),
         isSuccessStatus code = true → decode body = .error m →
         ingest_data (.response code sm body) decode predictFn now request st
           = (.error { status_code := 500,
                       detail := "Internal error during ingestion: " ++ m }, st))
    ∧ (∀ (decode : Bytes → Except String RGBImage)
         (predictFn : RGBImage → Except String (String × ℚ))
         (now : Timestamp) (request : IngestRequest) (st : MetricsState)
         (code : ℕ) (sm : String) (body : Bytes) (img : RGBImage)
         (m : String),
         isSuccessStatus code = true → decode body = .ok img →
         predictFn img = .error m →
         ingest_data (.response code sm body) decode predictFn now request st
           = (.error { status_code := 500,
                       detail := "Internal error during ingestion: " ++ m }, st))
    ∧ (∀ (decode₁ : Bytes → Except String RGBImage)
         (predictFn₁ : RGBImage → Except String (String × ℚ))
         (decode₂ : Bytes → Except String RGBImage)
         (predictFn₂ : RGBImage → Except String (String × ℚ))
         (now : Timestamp) (request : IngestRequest) (st : MetricsState)
         (code : ℕ) (sm : String) (body : Bytes) (img : RGBImage)
         (m : String),
         isSuccessStatus code = true → decode₁ body = .error m →
         decode₂ body = .ok img → predictFn₂ img = .error m →
         (ingest_data (.response code sm body) decode₁ predictFn₁
             now request st).1
           = (ingest_data (.response code sm body) decode₂ predictFn₂
               now request st).1) := by
  refine ⟨?_, ?_, ?_, ?_, ?_⟩
  · intro decode predictFn now request st m
    rfl
  · intro decode predictFn now request st code sm body h
    simp [ingest_data, ingestBody, h]
  · intro decode predictFn now request st code sm body m hc hd
    simp [ingest_data, ingestBody, hc, hd]
  · intro decode predictFn now request st code sm body img m hc hd hp
    simp [ingest_data, ingestBody, hc, hd, hp]
  · intro d₁ p₁ d₂ p₂ now request st code sm body img m hc hd₁ hd₂ hp
    simp [ingest_data, ingestBody, hc, hd₁, hd₂, hp]

/-- Closed instances of `ingest_error_classification` at concrete
inputs. -/
theorem ingest_error_classification_witness :
    ingest_data (.netError "connection refused") decodeOk predictWorld
        sampleTime sampleRequest emptyMetrics
      = (.error { status_code := 400,
                  detail := "Failed to download image from URL: "
                  ++ "connection refused" }, emptyMetrics)
    ∧ ingest_data (.response 404 "not found" [7]) decodeOk predictWorld
        sampleTime sampleRequest emptyMetrics
      = (.error { status_code := 400,
                  detail := "Failed to download image from URL: " ++ "not found" },
         emptyMetrics)
    ∧ ingest_data (.response 200 "ok" [7]) errDecode predictWorld
        sampleTime sampleRequest emptyMetrics
      = (.error { status_code := 500,
                  detail := "Internal error during ingestion: " ++ "stage failure" },
         emptyMetrics)
    ∧ ingest_data (.response 200 "ok" [7]) decodeOk errPredict
        sampleTime sampleRequest emptyMetrics
      = (.error { status_code := 500,
                  detail := "Internal error during ingestion: " ++ "stage failure" },
         emptyMetrics)
    ∧ (ingest_data (.response 200 "ok" [7]) errDecode predictWorld
        sampleTime sampleRequest emptyMetrics).1
      = (ingest_data (.response 200 "ok" [7]) decodeOk errPredict
        sampleTime sampleRequest emptyMetrics).1 :=
  ⟨ingest_error_classification.1 decodeOk predictWorld sampleTime
      sampleRequest emptyMetrics "connection refused",
   ingest_error_classification.2.1 decodeOk predictWorld sampleTime
      sampleRequest emptyMetrics 404 "not found" [7] (by decide),
   ingest_error_classification.2.2.1 errDecode predictWorld sampleTime
      sampleRequest emptyMetrics 200 "ok" [7] "stage failure"
      (by decide) rfl,
   ingest_error_classification.2.2.2.1 decodeOk errPredict sampleTime
      sampleRequest emptyMetrics 200 "ok" [7] {} "stage failure"
      (by decide) rfl rfl,
   ingest_error_classification.2.2.2.2 errDecode predictWorld decodeOk
      errPredict sampleTime sampleRequest emptyMetrics 200 "ok" [7] {}
      "stage failure" (by decide) rfl rfl rfl⟩

/-- C5: For every ingest request whose download, decode and inference all
succeed with prediction `(t, s)`, the handler returns a success response
carrying the generated (non-empty) image id, predicted text `t` and score
`s`, schedules the upload and metadata background tasks, and the metadata
record subsequently written to the document store carries the same image
id, predicted text, score, source URL and annotation. -/
theorem ingest_success (decode : Bytes → Except String RGBImage)
    (predictFn : RGBImage → Except String (String × ℚ)) (now : Timestamp)
    (request : IngestRequest) (st : MetricsState) (code : ℕ) (sm : String)
    (body : Bytes) (img : RGBImage) (t : String) (s : ℚ)
    (hcode : isSuccessStatus code = true)
    (hdec : decode body = .ok img)
    (hpred : predictFn img = .ok (t, s)) :
    ingest_data (.response code sm body) decode predictFn now request st
      = (.ok ({ status := "success", image_id := formatImageId now,
                predicted_text := t, score := s },
              [BgTask.uploadImage body (formatImageId now),
               BgTask.saveMetadata (formatImageId now) request.image_url
                 (ingestMinioPath (formatImageId now)) t s
                 request.annotation]),
         update_metrics s st)
    ∧ formatImageId now ≠ ""
    ∧ ∀ (mongo : List MetadataDocument) (now₂ : Timestamp),
        save_metadata_to_mongo (formatImageId now) request.image_url
            (ingestMinioPath (formatImageId now)) t s request.annotation
            now₂ mongo
          = mongo ++ [{ image_id := formatImageId now, timestamp := now₂,
                        image_url := request.image_url,
                        minio_path := ingestMinioPath (formatImageId now),
                        predicted_text := t, score := s,
                        annotation := request.annotation }] := by
  refine ⟨?_, formatImageId_ne_empty now, fun mongo now₂ => rfl⟩
  simp [ingest_data, ingestBody, hcode, hdec, hpred]

/-- Closed instance of `ingest_success` at concrete inputs, with the
inference adapter returning the prediction (world, 0.7). -/
theorem ingest_success_witness :
    ingest_data (.response 200 "ok" [7]) decodeOk predictWorld sampleTime
        sampleRequest emptyMetrics
      = (.ok ({ status := "success", image_id := formatImageId sampleTime,
                predicted_text := "world", score := 7/10 },
              [BgTask.uploadImage [7] (formatImageId sampleTime),
               BgTask.saveMetadata (formatImageId sampleTime)
                 sampleRequest.image_url
                 (ingestMinioPath (formatImageId sampleTime)) "world" (7/10)
                 sampleRequest.annotation]),
         update_metrics (7/10) emptyMetrics)
    ∧ formatImageId sampleTime ≠ ""
    ∧ ∀ (mongo : List MetadataDocument) (now₂ : Timestamp),
        save_metadata_to_mongo (formatImageId sampleTime)
            sampleRequest.image_url
            (ingestMinioPath (formatImageId sampleTime)) "world" (7/10)
            sampleRequest.annotation now₂ mongo
          = mongo ++ [{ image_id := formatImageId sampleTime,
                        timestamp := now₂,
                        image_url := sampleRequest.image_url,
                        minio_path :=
                          ingestMinioPath (formatImageId sampleTime),
                        predicted_text := "world", score := 7/10,
                        annotation := sampleRequest.annotation }] :=
  ingest_success decodeOk predictWorld sampleTime sampleRequest emptyMetrics
    200 "ok" [7] {} "world" (7/10) (by decide) rfl rfl

/-- C6 counterexample: when copying the upload into the scratch file
fails (an exception inside the `with` block, before the `try/finally` of
the handler is entered), the handler exits with the `delete=False`
scratch file still present, so the file is not deleted on every exit
path as the claim states. -/
theorem predict_temp_leak_counterexample :
    (predictHandler (.error "disk full") (.ok {}) predictWorld
        emptyMetrics).2.2 = true := rfl

/-- C6 (amended): the scratch file created by the upload-predict handler
is deleted on every exit path that enters the `try/finally` block — image
decode failure, inference failure and success — while a failure copying
the upload into the scratch file, which occurs before the `try` block,
leaks the file. -/
theorem predict_temp_file_released (decodeResult : Except String RGBImage)
    (predictFn : RGBImage → Except String (String × ℚ))
    (st : MetricsState) :
    (predictHandler (.ok ()) decodeResult predictFn st).2.2 = false := by
  simp only [predictHandler]
  split <;> rfl

/-- C9: Whenever either handler raises (scratch-copy, download, decode or
inference failure), the metrics state is returned unchanged:
`update_metrics` runs only after inference succeeds. -/
theorem metrics_unchanged_on_failure :
    (∀ (copyResult : Except String Unit)
       (decodeResult : Except String RGBImage)
       (predictFn : RGBImage → Except String (String × ℚ))
       (st : MetricsState) (e : String),
       (predictHandler copyResult decodeResult predictFn st).1 = .error e →
       (predictHandler copyResult decodeResult predictFn st).2.1 = st)
    ∧ (∀ (fetch : FetchOutcome) (decode : Bytes → Except String RGBImage)
         (predictFn : RGBImage → Except String (String × ℚ))
         (now : Timestamp) (request : IngestRequest) (st : MetricsState)
         (e : HTTPEx),
         (ingest_data fetch decode predictFn now request st).1 = .error e →
         (ingest_data fetch decode predictFn now request st).2 = st) := by
  constructor
  · intro cp d p st e h
    cases hc : cp with
    | error m => simp [predictHandler, hc]
    | ok u =>
      cases hd : d with
      | error m => simp [predictHandler, hc, hd]
      | ok img =>
        cases hp : p img with
        | error m => simp [predictHandler, hc, hd, hp]
        | ok pr =>
          obtain ⟨t, c⟩ := pr
          simp [predictHandler, hc, hd, hp] at h
  · intro fetch decode p now request st e h
    cases hb : ingestBody fetch decode p now request st with
    | ok v => simp [ingest_data, hb] at h
    | error err => cases err <;> simp [ingest_data, hb]

/-- Closed instances of `metrics_unchanged_on_failure` at failing
inputs. -/
theorem metrics_unchanged_on_failure_witness :
    (predictHandler (.ok ()) (.error "stage failure") predictWorld
        emptyMetrics).2.1 = emptyMetrics
    ∧ (ingest_data (.netError "connection reset") decodeOk predictWorld
        sampleTime sampleRequest emptyMetrics).2 = emptyMetrics :=
  ⟨metrics_unchanged_on_failure.1 (.ok ()) (.error "stage failure")
      predictWorld emptyMetrics "stage failure" rfl,
   metrics_unchanged_on_failure.2 (.netError "connection reset") decodeOk
      predictWorld sampleTime sampleRequest emptyMetrics
      { status_code := 400,
        detail := "Failed to download image from URL: "
          ++ "connection reset" } rfl⟩

/-- C10: The path string the ingest handler computes and writes into the
metadata record equals the path `upload_image_to_minio` returns for the
same image id, both being the container name, a slash, the id and the
".jpg" suffix. -/
theorem ingest_path_matches_storage_path (s3 : S3State) (image_data : Bytes)
    (image_id : String) :
    ingestMinioPath image_id
        = (upload_image_to_minio s3 image_data image_id).2
    ∧ ingestMinioPath image_id
        = MINIO_BUCKET ++ "/" ++ image_id ++ ".jpg" := by
  constructor
  · simp [ingestMinioPath, upload_image_to_minio, String.append_assoc]
  · rfl

end QuickSign
